import Mathlib

/-!
# Verification of the csv-chat code pipeline

Shallow embedding of the parts of the csv-chat repository relevant to the
frozen claims:

* `src/lib/code-sanitizer.ts` — `sanitizeCode`, `BLOCKED_PATTERNS`,
  `ALLOWED_IMPORTS`, `wrapCodeWithSafetyChecks` (the Python `_safe_to_json`
  helper);
* `src/lib/chart-recommender.ts` (an unnamed source file) — `analyzeData`,
  `recommendChart`, `normalizeDataForChart`;
* the chat API route (an unnamed source file) — the `POST` handler from the
  point where the generated code is sanitized.

Strings are modelled as Lean `String`s (lists of characters); the JavaScript
regular expressions used by the sanitizer are small and regular enough to be
given an exact, executable matching semantics below.  JavaScript `RegExp`
objects with the `g` flag carry a mutable `lastIndex`; since
`BLOCKED_PATTERNS` holds module-level `g`-flagged regex literals and
`RegExp.prototype.test` reads and writes `lastIndex`, the sanitizer is
modelled as a state-passing function over the list of `lastIndex` values.
-/

set_option autoImplicit false

namespace CsvChat

/-! ## JavaScript character classes and trimming -/

/-- JavaScript `\s` / `String.prototype.trim` whitespace: the WhiteSpace and
LineTerminator productions of ECMAScript. -/
def jsWs (c : Char) : Bool :=
  c == ' ' || c == '\t' || c == '\n' || c == '\r' ||
  c == '\x0b' || c == '\x0c' || c == ' ' ||
  c == ' ' || (0x2000 ≤ c.val && c.val ≤ 0x200A) ||
  c == ' ' || c == ' ' || c == ' ' ||
  c == ' ' || c == '　' || c == '﻿'

/-- JavaScript `\w`: `[A-Za-z0-9_]`. -/
def isWordChar (c : Char) : Bool :=
  c.isAlphanum || c == '_'

/-- `String.prototype.trim`. -/
def trimJS (s : String) : String :=
  ⟨((s.data.dropWhile jsWs).reverse.dropWhile jsWs).reverse⟩

/-! ## A small exact regex engine

The sanitizer's patterns only use: word boundaries `\b`, literal characters,
`\s*` and `\s+`.  In each pattern every `\s*`/`\s+` is followed by a
non-whitespace literal, so greedy (maximal-munch) matching without
backtracking is exact for them. -/

/-- One element of a sanitizer regex. -/
inductive RElem where
  | wordB          -- `\b`
  | lit (c : Char) -- a literal character
  | sstar          -- `\s*`
  | splus          -- `\s+`
  deriving DecidableEq, Repr

/-- A pattern: case-insensitivity flag (`i`) plus the element sequence. -/
structure RePat where
  ci : Bool
  elems : List RElem
  deriving DecidableEq, Repr

def charMatches (ci : Bool) (a b : Char) : Bool :=
  if ci then a.toLower == b.toLower else a == b

def isWordAt (s : List Char) (i : Nat) : Bool :=
  match s[i]? with
  | some c => isWordChar c
  | none => false

/-- Is there a `\b` word boundary at position `i` of `s`? -/
def wordBoundaryAt (s : List Char) (i : Nat) : Bool :=
  (if i = 0 then false else isWordAt s (i - 1)) != isWordAt s i

/-- Length of the whitespace run of `s` starting at position `i`. -/
def wsRun (s : List Char) (i : Nat) : Nat :=
  ((s.drop i).takeWhile jsWs).length

/-- Match the element list against `s` starting at position `i`; returns the
end position of the (deterministic) match. -/
def matchFrom (ci : Bool) : List RElem → List Char → Nat → Option Nat
  | [], _, i => some i
  | .wordB :: rest, s, i =>
      if wordBoundaryAt s i then matchFrom ci rest s i else none
  | .lit c :: rest, s, i =>
      match s[i]? with
      | some d => if charMatches ci d c then matchFrom ci rest s (i + 1) else none
      | none => none
  | .sstar :: rest, s, i => matchFrom ci rest s (i + wsRun s i)
  | .splus :: rest, s, i =>
      let n := wsRun s i
      if n = 0 then none else matchFrom ci rest s (i + n)

/-- Leftmost match of `p` in `s` at a position `≥ start`: returns
`(startPos, endPos)`. -/
def reFindFrom (p : RePat) (s : List Char) (start : Nat) : Option (Nat × Nat) :=
  (List.range' start (s.length + 1 - start)).findSome? fun i =>
    (matchFrom p.ci p.elems s i).map fun e => (i, e)

/-- `RegExp.prototype.test` for a regex without the `g` flag (or with a fresh
`lastIndex = 0`). -/
def reTest (p : RePat) (s : List Char) : Bool :=
  (reFindFrom p s 0).isSome

/-- `RegExp.prototype.test` for a `g`-flagged regex: search from `lastIndex`;
on success set `lastIndex` to the match end, on failure reset it to 0. -/
def gTest (p : RePat) (s : List Char) (lastIndex : Nat) : Bool × Nat :=
  match reFindFrom p s lastIndex with
  | some ie => (true, ie.2)
  | none => (false, 0)

/-- Literal-character run of a pattern. -/
def lits (s : String) : List RElem :=
  s.data.map RElem.lit

/-! ## The sanitizer's fixed denylist (`BLOCKED_PATTERNS`) -/

/-- A denylist entry: the JavaScript `source` text of the regex (used in the
error message) and its matching semantics.  All entries carry the `gi`
flags in the source. -/
structure BlockedPattern where
  source : String
  pat : RePat
  deriving DecidableEq, Repr

def BLOCKED_PATTERNS : List BlockedPattern := [
  ⟨"\\bos\\.", ⟨true, [.wordB] ++ lits "os."⟩⟩,
  ⟨"\\bsys\\.", ⟨true, [.wordB] ++ lits "sys."⟩⟩,
  ⟨"\\bsubprocess\\b", ⟨true, [.wordB] ++ lits "subprocess" ++ [.wordB]⟩⟩,
  ⟨"\\b__import__\\b", ⟨true, [.wordB] ++ lits "__import__" ++ [.wordB]⟩⟩,
  ⟨"\\beval\\s*\\(", ⟨true, [.wordB] ++ lits "eval" ++ [.sstar, .lit '(']⟩⟩,
  ⟨"\\bexec\\s*\\(", ⟨true, [.wordB] ++ lits "exec" ++ [.sstar, .lit '(']⟩⟩,
  ⟨"\\bcompile\\s*\\(", ⟨true, [.wordB] ++ lits "compile" ++ [.sstar, .lit '(']⟩⟩,
  ⟨"\\bglobals\\s*\\(", ⟨true, [.wordB] ++ lits "globals" ++ [.sstar, .lit '(']⟩⟩,
  ⟨"\\blocals\\s*\\(", ⟨true, [.wordB] ++ lits "locals" ++ [.sstar, .lit '(']⟩⟩,
  ⟨"\\b__builtins__\\b", ⟨true, [.wordB] ++ lits "__builtins__" ++ [.wordB]⟩⟩,
  ⟨"\\bopen\\s*\\(", ⟨true, [.wordB] ++ lits "open" ++ [.sstar, .lit '(']⟩⟩,
  ⟨"\\bpathlib\\b", ⟨true, [.wordB] ++ lits "pathlib" ++ [.wordB]⟩⟩,
  ⟨"\\bshutil\\b", ⟨true, [.wordB] ++ lits "shutil" ++ [.wordB]⟩⟩,
  ⟨"\\brequests\\b", ⟨true, [.wordB] ++ lits "requests" ++ [.wordB]⟩⟩,
  ⟨"\\burllib\\b", ⟨true, [.wordB] ++ lits "urllib" ++ [.wordB]⟩⟩,
  ⟨"\\bsocket\\b", ⟨true, [.wordB] ++ lits "socket" ++ [.wordB]⟩⟩,
  ⟨"import\\s+os\\b", ⟨true, lits "import" ++ [.splus] ++ lits "os" ++ [.wordB]⟩⟩,
  ⟨"import\\s+sys\\b", ⟨true, lits "import" ++ [.splus] ++ lits "sys" ++ [.wordB]⟩⟩,
  ⟨"import\\s+subprocess\\b", ⟨true, lits "import" ++ [.splus] ++ lits "subprocess" ++ [.wordB]⟩⟩,
  ⟨"from\\s+os\\b", ⟨true, lits "from" ++ [.splus] ++ lits "os" ++ [.wordB]⟩⟩,
  ⟨"from\\s+sys\\b", ⟨true, lits "from" ++ [.splus] ++ lits "sys" ++ [.wordB]⟩⟩,
  ⟨"import\\s+pickle\\b", ⟨true, lits "import" ++ [.splus] ++ lits "pickle" ++ [.wordB]⟩⟩,
  ⟨"\\bmatplotlib\\b", ⟨true, [.wordB] ++ lits "matplotlib" ++ [.wordB]⟩⟩,
  ⟨"\\bseaborn\\b", ⟨true, [.wordB] ++ lits "seaborn" ++ [.wordB]⟩⟩,
  ⟨"\\.plot\\s*\\(", ⟨true, lits ".plot" ++ [.sstar, .lit '(']⟩⟩,
  ⟨"\\.show\\s*\\(", ⟨true, lits ".show" ++ [.sstar, .lit '(']⟩⟩,
  ⟨"\\bplt\\.", ⟨true, [.wordB] ++ lits "plt."⟩⟩]

def ALLOWED_IMPORTS : List String := ["pandas", "numpy", "json", "pd", "np", "math"]

/-- `/print\s*\(\s*json\.dumps\s*\(/i` — the required output pattern. -/
def printDumpsPattern : RePat :=
  ⟨true, lits "print" ++ [.sstar, .lit '('] ++ [.sstar] ++ lits "json.dumps" ++ [.sstar, .lit '(']⟩

/-- `/df\s*\[\s*\[/` — double bracket access (case sensitive, no flags). -/
def dfDoublePattern : RePat :=
  ⟨false, lits "df" ++ [.sstar, .lit '['] ++ [.sstar, .lit '[']⟩

/-! ## Import scanning

`sanitizedCode.match(/(?:from\s+(\w+)|import\s+(\w+))/gi)` followed by
stripping the keyword and checking the module name against the allowlist.
The stripped-and-split module name always equals the `\w+` capture, so the
scanner below returns the captures directly. -/

/-- Case-insensitive literal keyword at position `i`; returns the end. -/
def keywordAt (s : List Char) (i : Nat) : List Char → Option Nat
  | [] => some i
  | c :: cs =>
      match s[i]? with
      | some d => if charMatches true d c then keywordAt s (i + 1) cs else none
      | none => none

/-- Length of the word-character run of `s` starting at `i`. -/
def wordRun (s : List Char) (i : Nat) : Nat :=
  ((s.drop i).takeWhile isWordChar).length

/-- After the keyword: `\s+` then the `\w+` capture. -/
def importTail (s : List Char) (j : Nat) : Option (Nat × String) :=
  let w := wsRun s j
  if w = 0 then none
  else
    let k := j + w
    let n := wordRun s k
    if n = 0 then none else some (k + n, ⟨(s.drop k).take n⟩)

/-- Try the alternation `from\s+(\w+)|import\s+(\w+)` at position `i`. -/
def importMatchAt (s : List Char) (i : Nat) : Option (Nat × String) :=
  match keywordAt s i "from".data with
  | some j =>
      match importTail s j with
      | some r => some r
      | none =>
          match keywordAt s i "import".data with
          | some j' => importTail s j'
          | none => none
  | none =>
      match keywordAt s i "import".data with
      | some j => importTail s j
      | none => none

/-- All module-name captures, in order, as found by repeated leftmost
matching (the semantics of `String.prototype.match` with `g`). -/
def scanImportsGo (s : List Char) : Nat → Nat → List String
  | 0, _ => []
  | fuel + 1, i =>
      if i > s.length then []
      else
        match importMatchAt s i with
        | some jn => jn.2 :: scanImportsGo s fuel jn.1
        | none => scanImportsGo s fuel (i + 1)

def scanImports (s : List Char) : List String :=
  scanImportsGo s (s.length + 1) 0

/-! ## `sanitizeCode` -/

structure SanitizationResult where
  isValid : Bool
  sanitizedCode : String
  errors : List String
  warnings : List String
  deriving DecidableEq, Repr

/-- One `pattern.test(sanitizedCode)` step per denylist entry, each with its
own persistent `lastIndex`: produces the optional error message and the new
`lastIndex`. -/
def blockedResults (s : List Char) (st : List Nat) : List (Option String × Nat) :=
  (BLOCKED_PATTERNS.zip st).map fun pl =>
    match gTest pl.1.pat s pl.2 with
    | (true, li) => (some ("Blocked pattern detected: " ++ pl.1.source.take 50), li)
    | (false, li) => (none, li)

/-- The balance checks on `(` `)` `[` `]` `{` `}`. -/
def balanceWarnings (s : List Char) : List String :=
  [(s.count '(', s.count ')', "parentheses"),
   (s.count '[', s.count ']', "brackets"),
   (s.count '{', s.count '}', "braces")].filterMap fun oc =>
    if oc.1 ≠ oc.2.1 then
      some ("Unbalanced " ++ oc.2.2 ++ ": " ++ toString oc.1 ++ " open, " ++
            toString oc.2.1 ++ " close")
    else none

/-- `moduleName.toLowerCase()` (ASCII; module names are ASCII). -/
def strToLower (s : String) : String :=
  ⟨s.data.map Char.toLower⟩

def importErrors (s : List Char) : List String :=
  (scanImports s).filterMap fun m =>
    if ALLOWED_IMPORTS.contains (strToLower m) then none
    else some ("Disallowed import: " ++ m)

/-- `sanitizeCode(code, availableColumns)` with the mutable `lastIndex` state
of the module-level `BLOCKED_PATTERNS` regexes made explicit.  Returns the
result together with the new state. -/
def sanitizeCodeSt (code : String) (_availableColumns : List String)
    (st : List Nat) : SanitizationResult × List Nat :=
  let sanitized := trimJS code
  if sanitized = "" then
    (⟨false, "", ["Empty code provided"], []⟩, st)
  else
    let s := sanitized.data
    let br := blockedResults s st
    let blockedErrs := br.filterMap Prod.fst
    let st' := br.map Prod.snd
    let errors := blockedErrs ++ importErrors s
    let w1 := if reTest printDumpsPattern s then []
              else ["Code should output results using print(json.dumps(...))"]
    let w3 := if reTest dfDoublePattern s then
                ["Detected double bracket access - ensure proper column selection"]
              else []
    (⟨errors.isEmpty, sanitized, errors, w1 ++ balanceWarnings s ++ w3⟩, st')

/-- The `lastIndex` state right after module load: all zeros. -/
def freshState : List Nat :=
  List.replicate BLOCKED_PATTERNS.length 0

/-- `sanitizeCode` as a pure function: the result of a call made in the fresh
regex state. -/
def sanitizeCode (code : String) (availableColumns : List String) : SanitizationResult :=
  (sanitizeCodeSt code availableColumns freshState).1

/-! ## JSON values

The execution result handed to `recommendChart` / `normalizeDataForChart` is
an arbitrary JavaScript value obtained from `JSON.parse` (plus `undefined`,
which property access on missing keys produces).  Numbers carry an integer
payload: the chart code never computes with the numeric value, it only
branches on `typeof` and on NaN-ness of string coercions. -/

inductive JsonVal where
  | null
  | undefined
  | bool (b : Bool)
  | num (n : Int)
  | str (s : String)
  | arr (elems : List JsonVal)
  | obj (entries : List (String × JsonVal))
  deriving Repr

def isNumV : JsonVal → Bool
  | .num _ => true
  | _ => false

/-- Property access `v[k]`.  (In JavaScript, access on `null`/`undefined`
throws; no modelled code path reaches that, and it is rendered as
`undefined` here.) -/
def jsGetV (v : JsonVal) (k : String) : JsonVal :=
  match v with
  | .obj es =>
      match es.find? (fun p => p.1 == k) with
      | some p => p.2
      | none => .undefined
  | _ => .undefined

/-! ### `String(v)` and `Number(v)` coercions -/

mutual

/-- `String(v)`. -/
def jsStringOf : JsonVal → String
  | .null => "null"
  | .undefined => "undefined"
  | .bool true => "true"
  | .bool false => "false"
  | .num n => toString n
  | .str s => s
  | .arr xs => arrJoinStr xs
  | .obj _ => "[object Object]"

/-- `Array.prototype.toString`: elements joined by commas, with `null` and
`undefined` elements rendered as empty strings. -/
def arrJoinStr : List JsonVal → String
  | [] => ""
  | [x] => arrElemStr x
  | x :: xs => arrElemStr x ++ "," ++ arrJoinStr xs

def arrElemStr : JsonVal → String
  | .null => ""
  | .undefined => ""
  | .bool true => "true"
  | .bool false => "false"
  | .num n => toString n
  | .str s => s
  | .arr xs => arrJoinStr xs
  | .obj _ => "[object Object]"

end

def isHexDigitChar (c : Char) : Bool :=
  c.isDigit || ('a' ≤ c && c ≤ 'f') || ('A' ≤ c && c ≤ 'F')

def isOctDigitChar (c : Char) : Bool :=
  '0' ≤ c && c ≤ '7'

def isBinDigitChar (c : Char) : Bool :=
  c == '0' || c == '1'

/-- Optional sign followed by at least one digit (an exponent body). -/
def signedDigitsOk (l : List Char) : Bool :=
  let l' := match l with
    | '+' :: t => t
    | '-' :: t => t
    | t => t
  !l'.isEmpty && l'.all Char.isDigit

/-- An optional exponent part, consuming the whole rest. -/
def expTailOk : List Char → Bool
  | [] => true
  | c :: cs => (c == 'e' || c == 'E') && signedDigitsOk cs

/-- Rest of an unsigned decimal literal after at least one leading digit. -/
def decAfterDigits (l : List Char) : Bool :=
  match l with
  | '.' :: t =>
      let fs := t.takeWhile Char.isDigit
      expTailOk (t.drop fs.length)
  | _ => expTailOk l

/-- An unsigned decimal literal (or `Infinity`) covering all of `l`. -/
def unsignedDecOk (l : List Char) : Bool :=
  let ds := l.takeWhile Char.isDigit
  if ds.isEmpty then
    match l with
    | '.' :: t =>
        let fs := t.takeWhile Char.isDigit
        !fs.isEmpty && expTailOk (t.drop fs.length)
    | _ => l == "Infinity".data
  else decAfterDigits (l.drop ds.length)

/-- `!isNaN(Number(s))` for a string `s`: the ECMAScript StringNumericLiteral
grammar (the empty/whitespace-only string converts to 0, hence counts). -/
def strNumeric (s : String) : Bool :=
  let t := ((s.data.dropWhile jsWs).reverse.dropWhile jsWs).reverse
  if t.isEmpty then true
  else
    match t with
    | '0' :: 'x' :: r => !r.isEmpty && r.all isHexDigitChar
    | '0' :: 'X' :: r => !r.isEmpty && r.all isHexDigitChar
    | '0' :: 'o' :: r => !r.isEmpty && r.all isOctDigitChar
    | '0' :: 'O' :: r => !r.isEmpty && r.all isOctDigitChar
    | '0' :: 'b' :: r => !r.isEmpty && r.all isBinDigitChar
    | '0' :: 'B' :: r => !r.isEmpty && r.all isBinDigitChar
    | '+' :: r => unsignedDecOk r
    | '-' :: r => unsignedDecOk r
    | _ => unsignedDecOk t

/-- `!isNaN(Number(v))` for an arbitrary value.  Numbers, booleans and
`null` convert to numbers; `undefined` and plain objects are NaN; an array
converts through its join string (`ToPrimitive` on an array falls back to
`Array.prototype.toString`), so `Number([])` is 0, `Number([5])` is 5 and
`Number([true])` is NaN because `String([true])` is `"true"`. -/
def notNaNNumber : JsonVal → Bool
  | .num _ => true
  | .bool _ => true
  | .null => true
  | .undefined => false
  | .str s => strNumeric s
  | .arr xs => strNumeric (arrJoinStr xs)
  | .obj _ => false

/-! ## Chart recommendation (`chart-recommender.ts`) -/

inductive ChartType where
  | bar | line | area | pie | scatter | table | number
  deriving DecidableEq, Repr

inductive Confidence where
  | high | medium | low
  deriving DecidableEq, Repr

structure ChartConfig where
  xKey : Option String := none
  yKey : Option String := none
  nameKey : Option String := none
  valueKey : Option String := none
  deriving DecidableEq, Repr

structure ChartRecommendation where
  chartType : ChartType
  confidence : Confidence
  reason : String
  config : Option ChartConfig := none
  deriving DecidableEq, Repr

structure DataAnalysis where
  isObject : Bool := false
  isArray : Bool := false
  isSingleValue : Bool := false
  isNumericMap : Bool := false
  isRecordArray : Bool := false
  isNumericArray : Bool := false
  isXYData : Bool := false
  isTimeSeries : Bool := false
  keyCount : Nat := 0
  recordCount : Nat := 0
  keys : List String := []
  numericKeys : List String := []
  dateKeys : List String := []
  deriving Repr

/-- `shapeCheck ps l`: the first `ps.length` characters of `l` exist and
satisfy the predicates pointwise (an anchored fixed-shape regex). -/
def shapeCheck : List (Char → Bool) → List Char → Bool
  | [], _ => true
  | _ :: _, [] => false
  | p :: ps, c :: cs => p c && shapeCheck ps cs

def listStartsWith : List Char → List Char → Bool
  | [], _ => true
  | _ :: _, [] => false
  | a :: as, b :: bs => a == b && listStartsWith as bs

def monthNameStart (l : List Char) : Bool :=
  let low := l.map Char.toLower
  ["jan", "feb", "mar", "apr", "may", "jun",
   "jul", "aug", "sep", "oct", "nov", "dec"].any
    (fun m => listStartsWith m.data low)

/-- `/^\d{4}-\d{2}|^\d{2}\/\d{2}|^(jan|feb|...|dec)/i` over map keys. -/
def mapKeyDatePattern (s : String) : Bool :=
  shapeCheck [Char.isDigit, Char.isDigit, Char.isDigit, Char.isDigit,
              (· == '-'), Char.isDigit, Char.isDigit] s.data ||
  shapeCheck [Char.isDigit, Char.isDigit, (· == '/'),
              Char.isDigit, Char.isDigit] s.data ||
  monthNameStart s.data

/-- `/^\d{4}-\d{2}-\d{2}|^\d{2}\/\d{2}\/\d{4}/` over record values. -/
def recordDatePattern (s : String) : Bool :=
  shapeCheck [Char.isDigit, Char.isDigit, Char.isDigit, Char.isDigit, (· == '-'),
              Char.isDigit, Char.isDigit, (· == '-'),
              Char.isDigit, Char.isDigit] s.data ||
  shapeCheck [Char.isDigit, Char.isDigit, (· == '/'),
              Char.isDigit, Char.isDigit, (· == '/'),
              Char.isDigit, Char.isDigit, Char.isDigit, Char.isDigit] s.data

/-- `analyzeData(data)`. -/
def analyzeData (data : JsonVal) : DataAnalysis :=
  match data with
  | .null => {}
  | .undefined => {}
  | .bool _ => {}
  | .num _ => { isSingleValue := true }
  | .str _ => { isSingleValue := true }
  | .obj es =>
      let keys := es.map Prod.fst
      let base : DataAnalysis := { isObject := true, keys := keys, keyCount := keys.length }
      if keys.length = 1 && keys.head? == some "value" then
        { base with isSingleValue := true }
      else if keys.contains "error" then
        base
      else
        let allNumeric := keys.all fun k => isNumV (jsGetV (.obj es) k)
        if allNumeric && keys.length > 1 then
          let isTS := keys.any mapKeyDatePattern
          { base with
              isNumericMap := true, numericKeys := keys, isTimeSeries := isTS,
              dateKeys := if isTS then keys.filter mapKeyDatePattern else [] }
        else base
  | .arr xs =>
      let base : DataAnalysis := { isArray := true, recordCount := xs.length }
      if xs.length = 0 then base
      else if xs.all isNumV then { base with isNumericArray := true }
      else
        match xs.head? with
        | some (.obj es0) =>
            let keys := es0.map Prod.fst
            let sample := fun (k : String) => (xs.take 10).map (fun r => jsGetV r k)
            let numericKeys := keys.filter fun k => (sample k).all fun v =>
              match v with
              | .num _ => true
              | .str s => strNumeric s
              | _ => false
            let dateKeys := keys.filter fun k => (sample k).any fun v =>
              match v with
              | .str s => recordDatePattern s
              | _ => false
            { base with
                isRecordArray := true, keys := keys, keyCount := keys.length,
                numericKeys := numericKeys, dateKeys := dateKeys,
                isXYData := keys.contains "x" && keys.contains "y",
                isTimeSeries := !dateKeys.isEmpty }
        | _ => base

/-- JavaScript truthiness of a possibly-undefined string. -/
def jsTruthy (o : Option String) : Bool :=
  match o with
  | some s => s ≠ ""
  | none => false

/-- `a || b` on possibly-undefined strings. -/
def jsTruthyOr (a b : Option String) : Option String :=
  if jsTruthy a then a else b

/-- `recommendChart(data)`. -/
def recommendChart (data : JsonVal) : ChartRecommendation :=
  let analysis := analyzeData data
  if !analysis.isObject && !analysis.isArray then
    if analysis.isSingleValue then
      ⟨.number, .high, "Single numeric value - display as metric", none⟩
    else
      ⟨.table, .low, "Unknown data structure", none⟩
  else if analysis.isObject && analysis.keys.contains "error" then
    ⟨.table, .high, "Error response - display as text", none⟩
  else if analysis.isSingleValue then
    ⟨.number, .high, "Single value result - display as large number", none⟩
  else if analysis.isNumericMap then
    if analysis.isTimeSeries then
      ⟨.line, .high, "Time series data detected (date keys with numeric values)",
        some { nameKey := some "name", valueKey := some "value" }⟩
    else if analysis.keyCount ≤ 6 then
      ⟨.pie, .high, toString analysis.keyCount ++ " categories - suitable for pie chart",
        some { nameKey := some "name", valueKey := some "value" }⟩
    else
      ⟨.bar, .high,
        "Category to value mapping (" ++ toString analysis.keyCount ++
          " categories) - ideal for bar chart",
        some { nameKey := some "name", valueKey := some "value" }⟩
  else if analysis.isRecordArray then
    if analysis.isXYData then
      ⟨.scatter, .high, "X/Y coordinate data - perfect for scatter plot",
        some { xKey := some "x", yKey := some "y" }⟩
    else if analysis.isTimeSeries && analysis.numericKeys.length > 0 then
      -- `isTimeSeries` for record arrays means `dateKeys` is nonempty, so
      -- `dateKeys[0]` is defined; `numericKeys[0]` is defined by the guard.
      let dateKey := analysis.dateKeys.headD ""
      let valueKey := (jsTruthyOr (analysis.numericKeys.find? (fun k => k ≠ dateKey))
        analysis.numericKeys.head?).getD ""
      ⟨.line, .high, "Time series records with dates - line chart recommended",
        some { xKey := some dateKey, yKey := some valueKey }⟩
    else
      let stringKeys := analysis.keys.filter (fun k => !analysis.numericKeys.contains k)
      if stringKeys.length ≥ 1 && analysis.numericKeys.length ≥ 1 &&
          analysis.recordCount ≤ 50 then
        ⟨.bar, .high,
          "Category column (" ++ stringKeys.headD "" ++ ") with numeric values - bar chart",
          some { xKey := stringKeys.head?, yKey := analysis.numericKeys.head? }⟩
      else if stringKeys.length = 0 && analysis.numericKeys.length > 0 then
        ⟨.table, .medium,
          "All numeric columns without category labels - showing as table (data may be missing group keys)",
          none⟩
      else if analysis.recordCount > 20 || analysis.keyCount > 4 then
        ⟨.table, .medium,
          "Large dataset (" ++ toString analysis.recordCount ++ " rows, " ++
            toString analysis.keyCount ++ " columns) - table view best",
          none⟩
      else if stringKeys.length ≥ 1 then
        ⟨.bar, .low, "Array of records - attempting bar chart",
          some { xKey := stringKeys.head?,
                 yKey := jsTruthyOr analysis.numericKeys.head? analysis.keys[1]? }⟩
      else
        ⟨.table, .low, "No suitable category column for chart - showing as table", none⟩
  else if analysis.isNumericArray then
    ⟨.line, .medium, "Array of numbers - line chart for sequence", none⟩
  else
    ⟨.table, .low, "Complex or unrecognized data structure - showing as table", none⟩

/-! ## `normalizeDataForChart` -/

structure ChartData where
  data : List JsonVal
  xKey : Option String
  yKey : Option String
  seriesKeys : Option (List String) := none
  deriving Repr

/-- JavaScript falsiness of a value (`!data`). -/
def jsFalsyVal : JsonVal → Bool
  | .null => true
  | .undefined => true
  | .bool false => true
  | .num 0 => true
  | .str "" => true
  | _ => false

/-- Substring test. -/
def containsSub (pat : List Char) (l : List Char) : Bool :=
  (List.range (l.length + 1)).any fun i => listStartsWith pat (l.drop i)

/-- `/date|time|year|month/i.test(k)`. -/
def dateNameTest (k : String) : Bool :=
  let low := k.data.map Char.toLower
  containsSub "date".data low || containsSub "time".data low ||
  containsSub "year".data low || containsSub "month".data low

/-- `Object.keys(records[0])`. -/
def recKeys (records : List JsonVal) : List String :=
  match records.head? with
  | some (.obj es) => es.map Prod.fst
  | _ => []

/-- Keys whose first five sample values are numbers or number-coercible. -/
def recNumericKeys (records : List JsonVal) : List String :=
  (recKeys records).filter fun k => (records.take 5).all fun r =>
    isNumV (jsGetV r k) || notNaNNumber (jsGetV r k)

def recStringKeys (records : List JsonVal) : List String :=
  (recKeys records).filter fun k => !(recNumericKeys records).contains k

/-- `keys.find(k => /date|time|year|month/i.test(k) && stringKeys.includes(k)) || stringKeys[0]`. -/
def recDateKey (records : List JsonVal) : Option String :=
  jsTruthyOr
    ((recKeys records).find? fun k =>
      dateNameTest k && (recStringKeys records).contains k)
    (recStringKeys records).head?

/-- `stringKeys.find(k => k !== dateKey)`. -/
def recCategoryKey (records : List JsonVal) : Option String :=
  (recStringKeys records).find? fun k => some k ≠ recDateKey records

/-- `numericKeys[0]`. -/
def recValueKey (records : List JsonVal) : Option String :=
  (recNumericKeys records).head?

def multiSeriesTypes : List ChartType := [.line, .bar, .area]

/-- A pivoted output row, as the entry list of a JavaScript object. -/
abbrev Row := List (String × JsonVal)

/-- JavaScript property assignment `o[k] = v` on an object literal: an
existing key keeps its position and gets the new value, a new key is
appended. -/
def objSetFirst : Row → String → JsonVal → Row
  | [], k, v => [(k, v)]
  | (k', w) :: t, k, v =>
      if k' == k then (k', v) :: t else (k', w) :: objSetFirst t k v

/-- Update the value stored under key `k` of an insertion-ordered map
(`Map.prototype.set` on an existing key keeps its position). -/
def assocUpdate : List (String × Row) → String → (Row → Row) → List (String × Row)
  | [], _, _ => []
  | (x, row) :: t, k, f =>
      if x == k then (x, f row) :: t else (x, row) :: assocUpdate t k f

/-- One iteration of the pivot loop in `normalizeDataForChart`:
accumulates the insertion-ordered `pivotedMap` and `allSeries`. -/
def pivotStep (dk ck vk : String) (acc : List (String × Row) × List String)
    (r : JsonVal) : List (String × Row) × List String :=
  let xVal := jsStringOf (jsGetV r dk)
  let series := jsStringOf (jsGetV r ck)
  let val := jsGetV r vk
  let allSeries := if acc.2.contains series then acc.2 else acc.2 ++ [series]
  let m :=
    if (acc.1.map Prod.fst).contains xVal then
      assocUpdate acc.1 xVal (fun row => objSetFirst row series val)
    else
      acc.1 ++ [(xVal, objSetFirst [(dk, JsonVal.str xVal)] series val)]
  (m, allSeries)

def pivotFold (dk ck vk : String) (records : List JsonVal) :
    List (String × Row) × List String :=
  records.foldl (pivotStep dk ck vk) ([], [])

/-- `normalizeDataForChart(data, chartType)`.

The record-array branch is entered in the source when
`typeof data[0] === 'object'`; for a `null` or array first element the
source then throws in `Object.keys` or degenerates — those inputs are
outside every claim and are modelled as falling through to the
numeric-array check. -/
def normalizeDataForChart (data : JsonVal) (chartType : ChartType) :
    Option ChartData :=
  if jsFalsyVal data then none
  else
    match data with
    | .obj es =>
        if (es.map Prod.fst).contains "error" then none
        else if es.length = 1 && (es.map Prod.fst).contains "value" then none
        else
          let normalized := (es.filter fun p => isNumV p.2).map fun p =>
            JsonVal.obj [("name", .str p.1), ("value", p.2)]
          if normalized.length = 0 then none
          else some ⟨normalized, some "name", some "value", none⟩
    | .arr records =>
        match records.head? with
        | some (.obj _) =>
            let keys := recKeys records
            if chartType = .scatter && keys.contains "x" && keys.contains "y" then
              some ⟨records, some "x", some "y", none⟩
            else
              let xKey := jsTruthyOr (recStringKeys records).head? keys.head?
              let yKey := jsTruthyOr (recNumericKeys records).head?
                (jsTruthyOr keys[1]? keys.head?)
              let dateKey := recDateKey records
              let categoryKey := recCategoryKey records
              let valueKey := recValueKey records
              if multiSeriesTypes.contains chartType && jsTruthy dateKey &&
                  jsTruthy categoryKey && jsTruthy valueKey then
                let pf := pivotFold (dateKey.getD "") (categoryKey.getD "")
                  (valueKey.getD "") records
                some ⟨pf.1.map (fun p => JsonVal.obj p.2), dateKey, valueKey, some pf.2⟩
              else
                some ⟨records, xKey, yKey, none⟩
        | _ =>
            if records.all isNumV then
              some ⟨records.mapIdx fun i v =>
                JsonVal.obj [("name", .str (toString (i + 1))), ("value", v)],
                some "name", some "value", none⟩
            else none
    | _ => none

/-! ## The chat API route (`POST`), from the sanitization step on

The handler first checks the request body and looks up the dataset metadata;
the claims concern the pipeline from `sanitizeCode(generation.code, ...)`
onward, which is modelled here.  The external Python executor is a
parameter; the returned `Option String` is the code text it was invoked
with (`none` when it was never invoked). -/

structure Generation where
  code : String
  summary : String
  explanation : Option String := none
  intent : Option String := none
  columns : Option (List String) := none
  aggregations : Option (List String) := none

structure ExecutionResult where
  success : Bool
  result : JsonVal := .null
  error : Option String := none
  stderr : Option String := none
  executionTime : Nat := 0

/-- `a || b` where `a` is a possibly-undefined string and `b` a fallback. -/
def jsStrOrD (a : Option String) (b : String) : String :=
  match a with
  | some s => if s = "" then b else s
  | none => b

mutual

/-- `JSON.stringify(v, null, 2)`, modulo indentation and string escaping,
which no claim inspects. -/
def jsonStringify : JsonVal → String
  | .null => "null"
  | .undefined => "undefined"
  | .bool true => "true"
  | .bool false => "false"
  | .num n => toString n
  | .str s => "\"" ++ s ++ "\""
  | .arr xs => "[" ++ jsonStringifyList xs ++ "]"
  | .obj es => "\x7b" ++ jsonStringifyEntries es ++ "\x7d"

def jsonStringifyList : List JsonVal → String
  | [] => ""
  | [x] => jsonStringify x
  | x :: xs => jsonStringify x ++ "," ++ jsonStringifyList xs

def jsonStringifyEntries : List (String × JsonVal) → String
  | [] => ""
  | [(k, v)] => "\"" ++ k ++ "\":" ++ jsonStringify v
  | (k, v) :: es => "\"" ++ k ++ "\":" ++ jsonStringify v ++ "," ++ jsonStringifyEntries es

end

structure ChatAnalysis where
  summary : String
  pythonCode : String
  codeOutput : String
  explanation : String
  executionTime : Nat
  result : Option JsonVal := none
  intent : Option String := none
  columns : Option (List String) := none
  aggregations : Option (List String) := none
  chartType : Option ChartType := none
  chartConfidence : Option Confidence := none
  chartReason : Option String := none
  chartData : Option (List JsonVal) := none
  chartConfig : Option (Option String × Option String) := none
  displayType : Option ChartType := none

structure ChatResponse where
  success : Bool
  analysis : ChatAnalysis

/-- The response built after the executor has run (the two lower branches of
the handler). -/
def chatRespOnExec (gen : Generation) (execution : ExecutionResult) : ChatResponse :=
  if execution.success = false then
    ⟨false,
      { summary := gen.summary
        pythonCode := gen.code
        codeOutput := jsStrOrD execution.error "Unknown error"
        explanation := jsStrOrD gen.explanation
          (jsStrOrD execution.stderr "No additional details available")
        executionTime := execution.executionTime
        intent := gen.intent
        columns := gen.columns
        aggregations := gen.aggregations }⟩
  else
    let chartRec := recommendChart execution.result
    let chartData := normalizeDataForChart execution.result chartRec.chartType
    ⟨true,
      { summary := gen.summary
        pythonCode := gen.code
        codeOutput := jsonStringify execution.result
        explanation :=
          if jsTruthy gen.explanation then
            gen.explanation.getD "" ++ " — Executed in " ++
              toString execution.executionTime ++ "ms"
          else
            "Execution completed in " ++ toString execution.executionTime ++ "ms"
        executionTime := execution.executionTime
        result := some execution.result
        intent := gen.intent
        columns := gen.columns
        aggregations := gen.aggregations
        chartType :=
          if chartRec.chartType ≠ .table && chartRec.chartType ≠ .number then
            some chartRec.chartType
          else none
        chartConfidence := some chartRec.confidence
        chartReason := some chartRec.reason
        chartData := chartData.map (·.data)
        chartConfig := chartData.map fun cd => (cd.xKey, cd.yKey)
        displayType := some chartRec.chartType }⟩

/-- The `POST` handler of the chat route from the sanitization call onward,
with the `BLOCKED_PATTERNS` regex state `st` explicit. -/
def chatPipeline (gen : Generation) (availableColumns : List String)
    (exec : String → ExecutionResult) (st : List Nat) :
    ChatResponse × Option String :=
  if (sanitizeCodeSt gen.code availableColumns st).1.isValid = false then
    (⟨false,
      { summary := gen.summary
        pythonCode := gen.code
        codeOutput := "Code validation failed: " ++
          String.intercalate ", " (sanitizeCodeSt gen.code availableColumns st).1.errors
        explanation := jsStrOrD gen.explanation
          "The generated code contains unsafe patterns and was blocked."
        executionTime := 0
        intent := gen.intent
        columns := gen.columns
        aggregations := gen.aggregations }⟩, none)
  else
    (chatRespOnExec gen
      (exec (sanitizeCodeSt gen.code availableColumns st).1.sanitizedCode),
     some (sanitizeCodeSt gen.code availableColumns st).1.sanitizedCode)

/-! ## The result normalizer `_safe_to_json`

`wrapCodeWithSafetyChecks` injects the Python helper `_safe_to_json` into
every executed program.  Python values are modelled with the payloads of the
pandas/numpy objects chosen as what the corresponding library call returns:

* `ndarray l` — `l` is the Python list `.tolist()` produces;
* `series es` — `es` is the mapping `.to_dict()` produces (the `try` branch;
  the `except ... reset_index` fallback only fires when `to_dict` raises);
* `dataframe recs` — `recs` are the records `.to_dict(orient='records')`
  produces after the datetime/period column conversions;
* `period s` / `timestamp s` — `s` is the object's `str()` form.

Dict keys are modelled as strings or integers (the hashable keys the
pipeline produces); `str(k)` is `pyKeyStr`. -/

inductive PyKey where
  | kstr (s : String)
  | kint (n : Int)
  deriving DecidableEq, Repr

def pyKeyStr : PyKey → String
  | .kstr s => s
  | .kint n => toString n

inductive PyVal where
  | pynone
  | pybool (b : Bool)
  | pyint (n : Int)
  | pyfloat (v : Int)
  | pystr (s : String)
  | npint (n : Int)
  | npfloat (v : Int)
  | period (s : String)
  | timestamp (s : String)
  | ndarray (tolist : List PyVal)
  | series (entries : List (PyKey × PyVal))
  | dataframe (records : List (List (PyKey × PyVal)))
  | pydict (entries : List (PyKey × PyVal))
  | pylist (elems : List PyVal)
  | pytuple (elems : List PyVal)
  deriving Repr

mutual

/-- `_safe_to_json(obj)`, following the `isinstance` chain of the source:
DataFrame, Period/Timestamp, Series, np scalar, ndarray, dict, list/tuple,
then passthrough. -/
def safeToJson : PyVal → PyVal
  | .dataframe recs => .pylist (recs.map PyVal.pydict)
  | .period s => .pystr s
  | .timestamp s => .pystr s
  | .series es => .pydict es
  | .npint n => .pyfloat n
  | .npfloat v => .pyfloat v
  | .ndarray l => .pylist l
  | .pydict es => .pydict (safeEntries es)
  | .pylist xs => .pylist (safeList xs)
  | .pytuple xs => .pylist (safeList xs)
  | v => v

/-- The list comprehension `[_safe_to_json(item) for item in obj]`. -/
def safeList : List PyVal → List PyVal
  | [] => []
  | x :: xs => safeToJson x :: safeList xs

/-- The dict comprehension `{str(k): _safe_to_json(v) for k, v in obj.items()}`. -/
def safeEntries : List (PyKey × PyVal) → List (PyKey × PyVal)
  | [] => []
  | (k, v) :: t => (.kstr (pyKeyStr k), safeToJson v) :: safeEntries t

end

mutual

/-- Values that `_safe_to_json` maps to themselves: plain scalars, lists of
fixed values, and dicts with string keys and fixed values.  (`tolist` of a
numeric ndarray yields exactly such values.) -/
def isFixed : PyVal → Bool
  | .pynone => true
  | .pybool _ => true
  | .pyint _ => true
  | .pyfloat _ => true
  | .pystr _ => true
  | .pydict es => entriesFixed es
  | .pylist xs => listFixed xs
  | _ => false

def listFixed : List PyVal → Bool
  | [] => true
  | x :: xs => isFixed x && listFixed xs

def entriesFixed : List (PyKey × PyVal) → Bool
  | [] => true
  | (.kstr _, v) :: t => isFixed v && entriesFixed t
  | (.kint _, _) :: _ => false

end

mutual

/-- Values on which `_safe_to_json` is idempotent: no Series, no DataFrame,
and every ndarray's `tolist` payload already a fixed point of the
conversion (numeric arrays qualify: their `tolist` yields native scalars). -/
def goodVal : PyVal → Bool
  | .series _ => false
  | .dataframe _ => false
  | .ndarray l => listFixed l
  | .pydict es => goodEntries es
  | .pylist xs => goodList xs
  | .pytuple xs => goodList xs
  | _ => true

def goodList : List PyVal → Bool
  | [] => true
  | x :: xs => goodVal x && goodList xs

def goodEntries : List (PyKey × PyVal) → Bool
  | [] => true
  | (_, v) :: t => goodVal v && goodEntries t

end

/-! ## Spec-side definitions

These definitions follow the specification's words (not the source); the
theorems below compare the source model against them. -/

theorem isEmpty_eq_decide {α : Type} (l : List α) : l.isEmpty = decide (l.length = 0) := by
  cases l <;> simp

theorem isEmpty_eq_false_of_mem {α : Type} {l : List α} {a : α} (h : a ∈ l) :
    l.isEmpty = false := by
  cases l with
  | nil => exact absurd h (List.not_mem_nil _)
  | cons x t => rfl

theorem mem_zip_replicate {α β : Type} (l : List α) (b : β) (x : α) (h : x ∈ l) :
    (x, b) ∈ l.zip (List.replicate l.length b) := by
  induction l with
  | nil => cases h
  | cons a t ih =>
      rcases List.mem_cons.mp h with rfl | h'
      · exact List.mem_cons_self _ _
      · exact List.mem_cons_of_mem _ (ih h')

/-- `sanitizeCodeSt` on nonempty trimmed code, written out. -/
theorem sanitizeCodeSt_eq (code : String) (cols : List String) (st : List Nat)
    (h : trimJS code ≠ "") :
    sanitizeCodeSt code cols st =
      (⟨((blockedResults (trimJS code).data st).filterMap Prod.fst ++
           importErrors (trimJS code).data).isEmpty,
        trimJS code,
        (blockedResults (trimJS code).data st).filterMap Prod.fst ++
          importErrors (trimJS code).data,
        (if reTest printDumpsPattern (trimJS code).data then []
         else ["Code should output results using print(json.dumps(...))"]) ++
          balanceWarnings (trimJS code).data ++
          (if reTest dfDoublePattern (trimJS code).data then
            ["Detected double bracket access - ensure proper column selection"]
          else [])⟩,
       (blockedResults (trimJS code).data st).map Prod.snd) := by
  unfold sanitizeCodeSt
  rw [if_neg h]

/-- The sanitized code field is always the trimmed input. -/
theorem sanitizedCode_eq_trim (code : String) (cols : List String) (st : List Nat) :
    (sanitizeCodeSt code cols st).1.sanitizedCode = trimJS code := by
  by_cases h : trimJS code = ""
  · unfold sanitizeCodeSt
    rw [if_pos h, h]
  · rw [sanitizeCodeSt_eq code cols st h]

theorem jsGetV_mem (es : List (String × JsonVal)) (k : String)
    (hk : k ∈ es.map Prod.fst) :
    ∃ p ∈ es, jsGetV (.obj es) k = p.2 := by
  rcases hf : es.find? (fun p => p.1 == k) with _ | p
  · exfalso
    obtain ⟨p, hp, hpk⟩ := List.mem_map.mp hk
    have := List.find?_eq_none.mp hf p hp
    simp [hpk] at this
  · exact ⟨p, List.mem_of_find?_eq_some hf, by simp [jsGetV, hf]⟩

/-! ## Claim C3 -/

/-- C3: for every input (and every regex state), the `SanitizationResult`
returned by `sanitizeCode` satisfies `isValid == (errors.length == 0)`;
since `isValid` is computed from `errors` alone, warnings never affect it. -/
theorem isValid_iff_errors_empty (code : String) (cols : List String) (st : List Nat) :
    (sanitizeCodeSt code cols st).1.isValid =
      decide ((sanitizeCodeSt code cols st).1.errors.length = 0) := by
  by_cases h : trimJS code = ""
  · unfold sanitizeCodeSt
    rw [if_pos h]
    rfl
  · rw [sanitizeCodeSt_eq code cols st h]
    exact isEmpty_eq_decide _

/-! ## Claim C1 -/

set_option maxRecDepth 8000 in
/-- C1: whenever some denylist pattern matches the (trimmed) code, the
sanitizer (called in the fresh regex state) returns `isValid = false` and an
error naming the blocked pattern (its regex source, truncated to 50
characters). -/
theorem sanitizeCode_blocks_denylisted (code : String) (cols : List String)
    (p : BlockedPattern) (hp : p ∈ BLOCKED_PATTERNS)
    (hm : reTest p.pat (trimJS code).data = true) :
    (sanitizeCode code cols).isValid = false ∧
      ("Blocked pattern detected: " ++ p.source.take 50) ∈
        (sanitizeCode code cols).errors := by
  have hempty : ∀ q ∈ BLOCKED_PATTERNS, reTest q.pat [] = false := by decide
  have hne : trimJS code ≠ "" := by
    intro h
    rw [h] at hm
    rw [show ("" : String).data = [] from rfl] at hm
    rw [hempty p hp] at hm
    exact absurd hm (by simp)
  obtain ⟨ie, hie⟩ : ∃ ie, reFindFrom p.pat (trimJS code).data 0 = some ie := by
    rcases hfind : reFindFrom p.pat (trimJS code).data 0 with _ | ie
    · rw [reTest, hfind] at hm
      exact absurd hm (by simp)
    · exact ⟨ie, rfl⟩
  have hzip : (p, 0) ∈ BLOCKED_PATTERNS.zip freshState := by
    rw [freshState]
    exact mem_zip_replicate _ _ _ hp
  have hmemb : (some ("Blocked pattern detected: " ++ p.source.take 50), ie.2) ∈
      blockedResults (trimJS code).data freshState := by
    refine List.mem_map.mpr ⟨(p, 0), hzip, ?_⟩
    simp [gTest, hie]
  have hmsg : ("Blocked pattern detected: " ++ p.source.take 50) ∈
      (blockedResults (trimJS code).data freshState).filterMap Prod.fst :=
    List.mem_filterMap.mpr ⟨_, hmemb, rfl⟩
  have herrs : ("Blocked pattern detected: " ++ p.source.take 50) ∈
      (blockedResults (trimJS code).data freshState).filterMap Prod.fst ++
        importErrors (trimJS code).data :=
    List.mem_append_left _ hmsg
  rw [sanitizeCode, sanitizeCodeSt_eq code cols freshState hne]
  exact ⟨isEmpty_eq_false_of_mem herrs, herrs⟩

set_option maxRecDepth 8000 in
theorem sanitizeCode_blocks_denylisted_witness :
    (sanitizeCode "os.getcwd()" []).isValid = false ∧
      ("Blocked pattern detected: " ++ ("\\bos\\." : String).take 50) ∈
        (sanitizeCode "os.getcwd()" []).errors :=
  sanitizeCode_blocks_denylisted "os.getcwd()" []
    ⟨"\\bos\\.", ⟨true, [.wordB] ++ lits "os."⟩⟩ (by decide) (by decide)

/-! ## Claim C4 -/

/-- C4: the claim of purity/determinism fails on the code.  The module-level
`BLOCKED_PATTERNS` regexes carry the `g` flag, and `RegExp.prototype.test`
advances their persistent `lastIndex`; two successive calls with the
identical input `"eval(x)"` (and identical columns) return different
results: the first rejects the code, the second accepts it. -/
theorem sanitizeCode_repeat_call_flips :
    ((sanitizeCodeSt "eval(x)" [] freshState).1.isValid = false) ∧
    ((sanitizeCodeSt "eval(x)" []
        (sanitizeCodeSt "eval(x)" [] freshState).2).1.isValid = true) :=
  ⟨rfl, rfl⟩

/-! ## Claim C2 -/

/-- C2: whenever sanitization fails, the pipeline (modelled from the
sanitization call onward) never invokes the executor — the returned
invocation record is `none` — and responds with `success = false`, the
original generated code, and the validator error list joined into
`codeOutput`. -/
theorem validation_failure_halts_pipeline (gen : Generation) (cols : List String)
    (exec : String → ExecutionResult) (st : List Nat)
    (h : (sanitizeCodeSt gen.code cols st).1.isValid = false) :
    (chatPipeline gen cols exec st).2 = none ∧
    (chatPipeline gen cols exec st).1.success = false ∧
    (chatPipeline gen cols exec st).1.analysis.pythonCode = gen.code ∧
    (chatPipeline gen cols exec st).1.analysis.codeOutput =
      "Code validation failed: " ++
        String.intercalate ", " (sanitizeCodeSt gen.code cols st).1.errors := by
  unfold chatPipeline
  rw [h]
  exact ⟨rfl, rfl, rfl, rfl⟩

set_option maxRecDepth 8000 in
theorem validation_failure_halts_pipeline_witness :
    (chatPipeline { code := "eval(x)", summary := "s" } []
        (fun _ => { success := true }) freshState).2 = none ∧
    (chatPipeline { code := "eval(x)", summary := "s" } []
        (fun _ => { success := true }) freshState).1.analysis.codeOutput =
      "Code validation failed: Blocked pattern detected: \\beval\\s*\\(" := by
  have h := validation_failure_halts_pipeline { code := "eval(x)", summary := "s" } []
    (fun _ => { success := true }) freshState rfl
  exact ⟨h.1, h.2.2.2.trans rfl⟩

/-! ## Claim C5 -/

set_option maxRecDepth 8000 in
/-- C5 counterexample: a code string with balanced parentheses, brackets and
braces, only allowlisted imports (none at all) and the required
`print(json.dumps(...))` output pattern for which `sanitizeCode`
nevertheless returns `isValid = false`, because it also matches the
denylist pattern `\beval\s*\(`. -/
theorem valid_shape_counterexample :
    ((trimJS "print(json.dumps(eval(x)))").data.count '(' =
      (trimJS "print(json.dumps(eval(x)))").data.count ')') ∧
    ((trimJS "print(json.dumps(eval(x)))").data.count '[' =
      (trimJS "print(json.dumps(eval(x)))").data.count ']') ∧
    ((trimJS "print(json.dumps(eval(x)))").data.count '{' =
      (trimJS "print(json.dumps(eval(x)))").data.count '}') ∧
    (∀ m ∈ scanImports (trimJS "print(json.dumps(eval(x)))").data,
      strToLower m ∈ ALLOWED_IMPORTS) ∧
    reTest printDumpsPattern (trimJS "print(json.dumps(eval(x)))").data = true ∧
    (sanitizeCode "print(json.dumps(eval(x)))" []).isValid = false := by
  refine ⟨by decide, by decide, by decide, by decide, by decide, ?_⟩
  rfl

/-- C5 amended: balanced brackets, allowlisted imports and the required
output pattern yield `isValid = true` PROVIDED no denylist pattern matches
(the condition the original claim omits). -/
theorem sanitizeCode_accepts_clean_code (code : String) (cols : List String)
    (_hb1 : (trimJS code).data.count '(' = (trimJS code).data.count ')')
    (_hb2 : (trimJS code).data.count '[' = (trimJS code).data.count ']')
    (_hb3 : (trimJS code).data.count '{' = (trimJS code).data.count '}')
    (himp : ∀ m ∈ scanImports (trimJS code).data, strToLower m ∈ ALLOWED_IMPORTS)
    (hout : reTest printDumpsPattern (trimJS code).data = true)
    (hblk : ∀ p ∈ BLOCKED_PATTERNS, reTest p.pat (trimJS code).data = false) :
    (sanitizeCode code cols).isValid = true := by
  have hne : trimJS code ≠ "" := by
    intro h
    rw [h, show ("" : String).data = [] from rfl] at hout
    exact absurd hout (by decide)
  have hb : (blockedResults (trimJS code).data freshState).filterMap Prod.fst = [] := by
    rw [List.filterMap_eq_nil_iff]
    intro pr hpr
    obtain ⟨⟨q, li⟩, hql, rfl⟩ := List.mem_map.mp hpr
    rw [freshState] at hql
    have hq : q ∈ BLOCKED_PATTERNS := (List.of_mem_zip hql).1
    have hli : li = 0 := List.eq_of_mem_replicate (List.of_mem_zip hql).2
    subst hli
    have hnone : reFindFrom q.pat (trimJS code).data 0 = none := by
      have h' := hblk q hq
      rw [reTest] at h'
      exact Option.not_isSome_iff_eq_none.mp (by simp [h'])
    simp [gTest, hnone]
  have hi : importErrors (trimJS code).data = [] := by
    rw [importErrors, List.filterMap_eq_nil_iff]
    intro m hm
    have := himp m hm
    simp [this]
  rw [sanitizeCode, sanitizeCodeSt_eq code cols freshState hne]
  show ((blockedResults (trimJS code).data freshState).filterMap Prod.fst ++
      importErrors (trimJS code).data).isEmpty = true
  rw [hb, hi]
  rfl

set_option maxRecDepth 8000 in
theorem sanitizeCode_accepts_clean_code_witness :
    (sanitizeCode "import pandas\nprint(json.dumps({}))" []).isValid = true :=
  sanitizeCode_accepts_clean_code "import pandas\nprint(json.dumps({}))" []
    (by decide) (by decide) (by decide) (by decide) (by decide) (by decide)

/-! ## Claim C10 -/

/-- C10: `sanitizeCode` never rewrites the code — for nonempty trimmed input
the returned `sanitizedCode` is exactly the input minus leading/trailing
whitespace, and (in any regex state) the code the pipeline hands to the
executor is exactly that trimmed string. -/
theorem sanitizeCode_only_trims (code : String) (cols : List String)
    (_h : trimJS code ≠ "") :
    (sanitizeCode code cols).sanitizedCode = trimJS code ∧
    ∀ (gen : Generation) (exec : String → ExecutionResult) (st : List Nat),
      gen.code = code →
      (sanitizeCodeSt code cols st).1.isValid = true →
      (chatPipeline gen cols exec st).2 = some (trimJS code) := by
  refine ⟨sanitizedCode_eq_trim code cols freshState, ?_⟩
  intro gen exec st hgen hv
  unfold chatPipeline
  rw [hgen, hv]
  simp only [Bool.true_eq_false, if_false]
  rw [sanitizedCode_eq_trim code cols st]

theorem sanitizeCode_only_trims_witness :
    trimJS "  x = 1  " ≠ "" ∧
    (sanitizeCode "  x = 1  " []).sanitizedCode = trimJS "  x = 1  " :=
  ⟨by decide, (sanitizeCode_only_trims "  x = 1  " [] (by decide)).1⟩

/-! ## Claim C6 -/

/-- C6: on a mapping whose values are all numbers, with more than one key
and no `error` key, `recommendChart` returns high confidence and — in this
priority order — `line` when some key matches the date-like pattern, else
`pie` when there are at most 6 keys, else `bar`. -/
theorem recommendChart_numeric_map_priority (es : List (String × JsonVal))
    (hnum : ∀ p ∈ es, isNumV p.2 = true)
    (hlen : 1 < es.length)
    (herr : (es.map Prod.fst).contains "error" = false) :
    (recommendChart (.obj es)).chartType =
      (if (es.map Prod.fst).any mapKeyDatePattern then ChartType.line
       else if es.length ≤ 6 then ChartType.pie else ChartType.bar) ∧
    (recommendChart (.obj es)).confidence = Confidence.high := by
  have hAll : ((es.map Prod.fst).all fun k => isNumV (jsGetV (.obj es) k)) = true := by
    rw [List.all_eq_true]
    intro k hk
    obtain ⟨p, hp, he⟩ := jsGetV_mem es k hk
    rw [he]
    exact hnum p hp
  have hana : analyzeData (.obj es) =
      { isObject := true, keys := es.map Prod.fst,
        keyCount := (es.map Prod.fst).length,
        isNumericMap := true, numericKeys := es.map Prod.fst,
        isTimeSeries := (es.map Prod.fst).any mapKeyDatePattern,
        dateKeys :=
          if (es.map Prod.fst).any mapKeyDatePattern then
            (es.map Prod.fst).filter mapKeyDatePattern
          else [] } := by
    simp only [analyzeData]
    rw [if_neg, if_neg, if_pos]
    all_goals first
      | rfl
      | (simp only [hAll, Bool.true_and, List.length_map]
         simp
         omega)
      | (rw [herr]; simp)
  unfold recommendChart
  rw [hana]
  rcases hts : (es.map Prod.fst).any mapKeyDatePattern with _ | _
  · by_cases h6 : es.length ≤ 6
    · simp only [herr]
      simp [hts, List.length_map, h6]
    · simp only [herr]
      simp [hts, List.length_map, h6]
  · simp only [herr]
    simp [hts, List.length_map]

theorem recommendChart_numeric_map_priority_witness :
    (recommendChart (JsonVal.obj [("North", .num 10), ("South", .num 20),
        ("East", .num 5), ("West", .num 7)])).chartType = ChartType.pie ∧
    (recommendChart (JsonVal.obj [("North", .num 10), ("South", .num 20),
        ("East", .num 5), ("West", .num 7)])).confidence = Confidence.high := by
  have h := recommendChart_numeric_map_priority
    [("North", .num 10), ("South", .num 20), ("East", .num 5), ("West", .num 7)]
    (by decide) (by decide) (by decide)
  exact ⟨h.1.trans (by rfl), h.2⟩

/-! ## Claim C8 -/

/-- Soundness of `isFixed`: fixed-shape values are mapped to themselves.
Proved by strong induction on `sizeOf`, jointly with the list and entry
versions. -/
theorem fixed_sound (n : Nat) :
    (∀ v : PyVal, sizeOf v ≤ n → isFixed v = true → safeToJson v = v) ∧
    (∀ xs : List PyVal, sizeOf xs ≤ n → listFixed xs = true → safeList xs = xs) ∧
    (∀ es : List (PyKey × PyVal), sizeOf es ≤ n → entriesFixed es = true →
      safeEntries es = es) := by
  induction n using Nat.strong_induction_on with
  | _ n ih =>
    refine ⟨?_, ?_, ?_⟩
    · intro v hs hf
      cases v with
      | pynone => rfl
      | pybool b => rfl
      | pyint m => rfl
      | pyfloat m => rfl
      | pystr s => rfl
      | npint m => simp [isFixed] at hf
      | npfloat m => simp [isFixed] at hf
      | period s => simp [isFixed] at hf
      | timestamp s => simp [isFixed] at hf
      | ndarray l => simp [isFixed] at hf
      | series es => simp [isFixed] at hf
      | dataframe recs => simp [isFixed] at hf
      | pytuple xs => simp [isFixed] at hf
      | pydict es =>
          have h1 : sizeOf (PyVal.pydict es) = 1 + sizeOf es := by simp
          have hlt : sizeOf es < n := by omega
          show PyVal.pydict (safeEntries es) = PyVal.pydict es
          rw [(ih _ hlt).2.2 es le_rfl (by simpa [isFixed] using hf)]
      | pylist xs =>
          have h1 : sizeOf (PyVal.pylist xs) = 1 + sizeOf xs := by simp
          have hlt : sizeOf xs < n := by omega
          show PyVal.pylist (safeList xs) = PyVal.pylist xs
          rw [(ih _ hlt).2.1 xs le_rfl (by simpa [isFixed] using hf)]
    · intro xs hs hf
      cases xs with
      | nil => rfl
      | cons x t =>
          simp only [listFixed, Bool.and_eq_true] at hf
          have h1 : sizeOf (x :: t) = 1 + sizeOf x + sizeOf t := by simp
          have hx : sizeOf x < n := by omega
          have ht : sizeOf t < n := by omega
          show safeToJson x :: safeList t = x :: t
          rw [(ih _ hx).1 x le_rfl hf.1, (ih _ ht).2.1 t le_rfl hf.2]
    · intro es hs hf
      cases es with
      | nil => rfl
      | cons kv t =>
          obtain ⟨k, v⟩ := kv
          cases k with
          | kint m => simp [entriesFixed] at hf
          | kstr str =>
              simp only [entriesFixed, Bool.and_eq_true] at hf
              have h1 : sizeOf ((PyKey.kstr str, v) :: t) =
                  1 + (1 + sizeOf (PyKey.kstr str) + sizeOf v) + sizeOf t := by simp
              have hv : sizeOf v < n := by omega
              have ht : sizeOf t < n := by omega
              show (PyKey.kstr (pyKeyStr (PyKey.kstr str)), safeToJson v) :: safeEntries t =
                (PyKey.kstr str, v) :: t
              rw [(ih _ hv).1 v le_rfl hf.1, (ih _ ht).2.2 t le_rfl hf.2]
              rfl

/-- Idempotence of `_safe_to_json` on the `goodVal` domain, jointly with the
list and entry versions; strong induction on `sizeOf`. -/
theorem good_idem (n : Nat) :
    (∀ v : PyVal, sizeOf v ≤ n → goodVal v = true →
      safeToJson (safeToJson v) = safeToJson v) ∧
    (∀ xs : List PyVal, sizeOf xs ≤ n → goodList xs = true →
      safeList (safeList xs) = safeList xs) ∧
    (∀ es : List (PyKey × PyVal), sizeOf es ≤ n → goodEntries es = true →
      safeEntries (safeEntries es) = safeEntries es) := by
  induction n using Nat.strong_induction_on with
  | _ n ih =>
    refine ⟨?_, ?_, ?_⟩
    · intro v hs hg
      cases v with
      | pynone => rfl
      | pybool b => rfl
      | pyint m => rfl
      | pyfloat m => rfl
      | pystr s => rfl
      | npint m => rfl
      | npfloat m => rfl
      | period s => rfl
      | timestamp s => rfl
      | series es => simp [goodVal] at hg
      | dataframe recs => simp [goodVal] at hg
      | ndarray l =>
          have hfix : listFixed l = true := by simpa [goodVal] using hg
          show PyVal.pylist (safeList l) = PyVal.pylist l
          rw [(fixed_sound (sizeOf l)).2.1 l le_rfl hfix]
      | pydict es =>
          have h1 : sizeOf (PyVal.pydict es) = 1 + sizeOf es := by simp
          have hlt : sizeOf es < n := by omega
          show PyVal.pydict (safeEntries (safeEntries es)) = PyVal.pydict (safeEntries es)
          rw [(ih _ hlt).2.2 es le_rfl (by simpa [goodVal] using hg)]
      | pylist xs =>
          have h1 : sizeOf (PyVal.pylist xs) = 1 + sizeOf xs := by simp
          have hlt : sizeOf xs < n := by omega
          show PyVal.pylist (safeList (safeList xs)) = PyVal.pylist (safeList xs)
          rw [(ih _ hlt).2.1 xs le_rfl (by simpa [goodVal] using hg)]
      | pytuple xs =>
          have h1 : sizeOf (PyVal.pytuple xs) = 1 + sizeOf xs := by simp
          have hlt : sizeOf xs < n := by omega
          show PyVal.pylist (safeList (safeList xs)) = PyVal.pylist (safeList xs)
          rw [(ih _ hlt).2.1 xs le_rfl (by simpa [goodVal] using hg)]
    · intro xs hs hg
      cases xs with
      | nil => rfl
      | cons x t =>
          simp only [goodList, Bool.and_eq_true] at hg
          have h1 : sizeOf (x :: t) = 1 + sizeOf x + sizeOf t := by simp
          have hx : sizeOf x < n := by omega
          have ht : sizeOf t < n := by omega
          show safeToJson (safeToJson x) :: safeList (safeList t) =
            safeToJson x :: safeList t
          rw [(ih _ hx).1 x le_rfl hg.1, (ih _ ht).2.1 t le_rfl hg.2]
    · intro es hs hg
      cases es with
      | nil => rfl
      | cons kv t =>
          obtain ⟨k, v⟩ := kv
          simp only [goodEntries, Bool.and_eq_true] at hg
          have h1 : sizeOf ((k, v) :: t) = 1 + (1 + sizeOf k + sizeOf v) + sizeOf t := by
            simp
          have hv : sizeOf v < n := by omega
          have ht : sizeOf t < n := by omega
          show (PyKey.kstr (pyKeyStr (PyKey.kstr (pyKeyStr k))),
              safeToJson (safeToJson v)) :: safeEntries (safeEntries t) =
            (PyKey.kstr (pyKeyStr k), safeToJson v) :: safeEntries t
          rw [(ih _ hv).1 v le_rfl hg.1, (ih _ ht).2.2 t le_rfl hg.2]
          rfl

/-- C9 counterexample: the result normalizer is not idempotent as claimed.
For a pandas Series with integer index, `_safe_to_json` returns
`obj.to_dict()` without recursing, so a second application stringifies the
integer keys that the first left alone. -/
theorem safeToJson_not_idempotent_on_series :
    safeToJson (safeToJson (PyVal.series [(PyKey.kint 0, PyVal.pyint 1)])) ≠
      safeToJson (PyVal.series [(PyKey.kint 0, PyVal.pyint 1)]) := by
  intro h
  simp [safeToJson, safeEntries, pyKeyStr] at h

/-- C9 amended: `normalize(normalize(x)) == normalize(x)` for every input
containing no pandas Series and no DataFrame and whose ndarray payloads are
already normal forms (in particular all numeric ndarrays). -/
theorem safeToJson_idempotent_on_good (v : PyVal) (h : goodVal v = true) :
    safeToJson (safeToJson v) = safeToJson v :=
  (good_idem (sizeOf v)).1 v le_rfl h

theorem safeToJson_idempotent_on_good_witness :
    goodVal (PyVal.pydict [(PyKey.kint 3, PyVal.npint 7)]) = true ∧
    safeToJson (safeToJson (PyVal.pydict [(PyKey.kint 3, PyVal.npint 7)])) =
      safeToJson (PyVal.pydict [(PyKey.kint 3, PyVal.npint 7)]) :=
  ⟨rfl, safeToJson_idempotent_on_good _ rfl⟩

/-! ## Claim C7 -/

end CsvChat
